/-
Verification of the pagination-iterator, job-polling and mock-server core of
publer.go, shallowly embedded in Lean 4.

Conventions of the embedding:
* Go `int` is modelled as `Int` (all divisions in the source act on
  non-negative operands, where Lean's `Int` division agrees with Go's).
* Go `time.Time` and `time.Duration` are modelled as `Int` (nanoseconds); the
  zero time is `0`, `t.Before u` is `t < u`, `t.After u` is `t > u`.
* Go `error` values are modelled as `Option String` (`none` = nil).
* Go maps are modelled as association lists (`List (String × α)`).
* A Go runtime panic is modelled by returning `none` from the function that
  panics (`Option`-typed results).
* The configured mock bodies have Go type `any`; the model is parametrised by
  a body type `β`.
-/
import Mathlib

set_option linter.unusedVariables false

namespace Publer

/-! ## Domain types (src/unnamed/part_010) -/

/-- Go `time.Time`, as nanoseconds since the epoch; `IsZero` is `= 0`. -/
abbrev GoTime := Int

/-- `User` from the source. -/
structure User where
  id : String
  email : String
  name : String
  firstName : String
  picture : String
  deriving Repr, DecidableEq

/-- `Post` from the source. -/
structure Post where
  id : String
  text : String
  url : String
  state : String
  ty : String          -- Go field `Type`
  accountID : String
  user : User
  scheduledAt : GoTime
  postLink : String
  hasMedia : Bool
  network : String
  deriving Repr, DecidableEq

/-- `Account` from the source. -/
structure Account where
  id : String
  provider : String
  name : String
  socialID : String
  picture : String
  ty : String          -- Go field `Type`
  deriving Repr, DecidableEq

/-- `Workspace` from the source. -/
structure Workspace where
  id : String
  owner : User
  name : String
  members : List User
  plan : String
  picture : String
  deriving Repr, DecidableEq

/-- `JobResult` from the source; `Data map[string]any` is modelled as an
association list of strings. -/
structure JobResult where
  success : Bool
  postIDs : List String
  message : String
  error : String
  data : List (String × String)
  deriving Repr, DecidableEq

/-- `JobStatus` from the source (`Result *JobResult` becomes an `Option`). -/
structure JobStatus where
  id : String
  status : String
  progress : Int
  result : Option JobResult
  error : String
  deriving Repr, DecidableEq

/-- `ErrorResponse` from the source (src/unnamed/part_009). -/
structure ErrorResponse where
  error : String
  message : String
  code : String
  deriving Repr, DecidableEq

/-! ## Pages and the generic iterator (src/v1/iterator.go) -/

/-- `Page[T]` from src/v1/iterator.go. -/
structure Page (T : Type) where
  items : List T
  total : Int
  page : Int
  perPage : Int
  totalPages : Int
  deriving Repr, DecidableEq

/-- The mutable state of `GenericIterator[T]` (the `fetcher` field is passed
separately as a function, and `err` is the stored Go error). -/
structure GenericIterator (T : Type) where
  currentPage : Int
  totalPages : Int
  err : Option String
  inited : Bool        -- Go field `initialized`
  deriving Repr, DecidableEq

/-- `NewGenericIterator`: the zero-valued iterator state. -/
def NewGenericIterator (T : Type) : GenericIterator T :=
  { currentPage := 0, totalPages := 0, err := none, inited := false }

/-- A Go `context.Context` at the moment `Next` inspects it: whether
`ctx.Done()` is closed, and what `ctx.Err()` reports then. -/
structure GoCtx where
  done : Bool
  errMsg : String
  deriving Repr, DecidableEq

/-- A context that is not cancelled. -/
def liveCtx : GoCtx := { done := false, errMsg := "" }

/-- Everything one call of `GenericIterator.Next` does: the state it leaves
behind, its boolean return value, what (if anything) it copied into the
caller's `page` out-parameter, and whether it invoked `fetcher.FetchPage`. -/
structure NextResult (T : Type) where
  state : GenericIterator T
  ret : Bool
  written : Option (Page T)
  fetched : Bool
  deriving Repr, DecidableEq

/-- `GenericIterator.Next` from src/v1/iterator.go, lines 46–84, transcribed
line by line.  `fetch` is `it.fetcher.FetchPage` applied to the context. -/
def GenericIterator.next (fetch : Int → Except String (Page T)) (ctx : GoCtx)
    (it : GenericIterator T) : NextResult T :=
  -- select { case <-ctx.Done(): it.err = ctx.Err(); return false; default: }
  if ctx.done then
    { state := { it with err := some ctx.errMsg }, ret := false,
      written := none, fetched := false }
  else
    -- if !it.initialized { it.currentPage = 0; it.initialized = true }
    let it := if !it.inited then { it with currentPage := 0, inited := true } else it
    -- if it.totalPages > 0 && it.currentPage >= it.totalPages { return false }
    if it.totalPages > 0 ∧ it.currentPage ≥ it.totalPages then
      { state := it, ret := false, written := none, fetched := false }
    else
      -- it.currentPage++; fetchedPage, err := it.fetcher.FetchPage(ctx, it.currentPage)
      let cp := it.currentPage + 1
      match fetch cp with
      | .error e =>
        -- it.err = err; return false
        { state := { it with currentPage := cp, err := some e }, ret := false,
          written := none, fetched := true }
      | .ok fetchedPage =>
        -- if it.currentPage == 1 { it.totalPages = fetchedPage.TotalPages }
        let tp := if cp = 1 then fetchedPage.totalPages else it.totalPages
        -- *page = *fetchedPage; return it.currentPage < it.totalPages
        { state := { it with currentPage := cp, totalPages := tp },
          ret := decide (cp < tp), written := some fetchedPage, fetched := true }

/-- Driving an iterator to exhaustion: call `next` repeatedly, collect every
page written into the out-parameter, and stop at the first `false` return
(whose page, when one was written, is still collected — the last page arrives
together with the terminal `false`).  `fuel` bounds the number of calls. -/
def runIter (fetch : Int → Except String (Page T)) (ctx : GoCtx) :
    Nat → GenericIterator T → List (Page T) → List (Page T) × GenericIterator T
  | 0, it, acc => (acc.reverse, it)
  | Nat.succ n, it, acc =>
    let r := GenericIterator.next fetch ctx it
    let acc' := match r.written with
      | some p => p :: acc
      | none => acc
    if r.ret then runIter fetch ctx n r.state acc' else (acc'.reverse, r.state)

/-! ## The job poller `Client.WaitForJob` (src/unnamed/part_008) -/

/-- `time.Millisecond` in nanoseconds. -/
def millisecond : Int := 1000000

/-- The jitter sample `time.Duration(r.Intn(int(jitter/time.Millisecond))) *
time.Millisecond` from src/unnamed/part_008 line 84, with the random source
modelled by an arbitrary `r : Nat` (`rand.Intn n` returns a value in
`[0, n)`, here realised as `r % n`; the source panics when
`jitter < time.Millisecond`, which the claims never exercise). -/
def jitterSample (jitter : Int) (r : Nat) : Int :=
  ((r % (jitter / millisecond).toNat : Nat) : Int) * millisecond

/-- The delay update performed by `WaitForJob` on a non-terminal status
(src/unnamed/part_008 lines 76–84): double `delay` and cap it at `maxDelay`
only when `delay < maxDelay`, then add the jitter sample `jit`. -/
def waitNextDelay (maxDelay delay jit : Int) : Int :=
  let delay :=
    if delay < maxDelay then
      let d := delay * 2
      if d > maxDelay then maxDelay else d
    else delay
  delay + jit

/-- The deterministic portion of `waitNextDelay`, before the jitter is added. -/
def waitNextDelayDet (maxDelay delay : Int) : Int :=
  if delay < maxDelay then
    let d := delay * 2
    if d > maxDelay then maxDelay else d
  else delay

/-- Modelled from the spec: "double `delay` (capped at `maxDelay`), then add a
uniformly random jitter" — the next wait is the previous delay doubled and
capped at `maxDelay`, plus the jitter sample.  Used only to compare the spec's
recurrence against `waitNextDelay` from the source. -/
def specNextDelay (maxDelay delay jit : Int) : Int :=
  min (delay * 2) maxDelay + jit

/-- What one polling iteration of `WaitForJob` does once a status response has
arrived (src/unnamed/part_008 lines 61–87): either the loop returns, writing a
`JobResult` through the `result` out-parameter with a final Go error
(`none` = nil), or it keeps polling. -/
inductive WaitOutcome where
  | finished (written : JobResult) (retErr : Option String)
  | keepPolling
  deriving Repr, DecidableEq

/-- The `switch statusResp.Status` branch of `WaitForJob`
(src/unnamed/part_008 lines 61–87), transcribed case by case.  The `default`
branch returns without touching `result`, which the model records by writing
nothing — represented as `finished` with no result copy; to keep the
out-parameter untouched it is threaded explicitly. -/
def waitForJobStep (prev : JobResult) (statusResp : JobStatus) : WaitOutcome :=
  match statusResp.status with
  | "completed" =>
    -- *result = *statusResp.Result, or JobResult{Success: true}
    .finished
      (statusResp.result.getD
        { success := true, postIDs := [], message := "", error := "", data := [] })
      none
  | "failed" | "cancelled" =>
    -- *result = *statusResp.Result, or JobResult{Success: false, Error: Error}
    .finished
      (statusResp.result.getD
        { success := false, postIDs := [], message := "", error := statusResp.error,
          data := [] })
      (some ("job " ++ statusResp.status ++ ": " ++ statusResp.error))
  | "pending" | "working" | "processing" => .keepPolling
  | other =>
    -- return fmt.Errorf("unknown job status: %s", ...): result untouched
    .finished prev (some ("unknown job status: " ++ other))

/-! ## The mock server: filters and list handlers (src/unnamed/part_017) -/

/-- `defaultPerPage` from src/unnamed/part_017. -/
def defaultPerPage : Int := 10

/-- The posts-list query parameters read by `MockServer.filterPosts`
(src/unnamed/part_017 lines 433–455).  An absent string parameter is `""`, an
absent multi-value parameter is `[]`, and `fromTime`/`toTime` hold the parsed
RFC3339 value, with `0` (the zero time) for an absent or unparsable one —
exactly what the source's `time.Parse` error branch produces. -/
structure PostFilters where
  state : String
  states : List String
  query : String
  accountIDs : List String
  postType : String
  memberID : String
  fromTime : GoTime
  toTime : GoTime
  deriving Repr, DecidableEq

/-- The empty filter set: every parameter absent. -/
def noFilters : PostFilters :=
  { state := "", states := [], query := "", accountIDs := [], postType := "",
    memberID := "", fromTime := 0, toTime := 0 }

/-- `strings.ToLower`, character by character. -/
def goToLower (s : String) : String := String.mk (s.toList.map Char.toLower)

/-- Whether `l` starts with `pre`. -/
def listStartsWith : List Char → List Char → Bool
  | _, [] => true
  | [], _ :: _ => false
  | a :: as, b :: bs => a == b && listStartsWith as bs

/-- Whether `needle` occurs contiguously inside `haystack`. -/
def listHasInfix : List Char → List Char → Bool
  | haystack, needle =>
    listStartsWith haystack needle ||
    match haystack with
    | [] => false
    | _ :: rest => listHasInfix rest needle

/-- `strings.Contains haystack needle`. -/
def goContains (haystack needle : String) : Bool :=
  listHasInfix haystack.toList needle.toList

/-- The body of the `for _, post := range m.posts` loop of
`MockServer.filterPosts` (src/unnamed/part_017 lines 457–515): a post is kept
exactly when none of the `continue` conditions fires. -/
def matchesFilters (f : PostFilters) (post : Post) : Bool :=
  (f.state == "" || post.state == f.state) &&
  (f.states.isEmpty || f.states.any (fun s => post.state == s)) &&
  (f.query == "" || goContains (goToLower post.text) (goToLower f.query)) &&
  (f.accountIDs.isEmpty || f.accountIDs.any (fun a => post.accountID == a)) &&
  (f.postType == "" || post.ty == f.postType) &&
  (f.memberID == "" || post.user.id == f.memberID) &&
  (f.fromTime == 0 || !(post.scheduledAt < f.fromTime)) &&
  (f.toTime == 0 || !(post.scheduledAt > f.toTime))

/-- `MockServer.filterPosts` (src/unnamed/part_017 lines 430–518): the posts
that survive every active filter, in their stored order. -/
def filterPosts (posts : List Post) (f : PostFilters) : List Post :=
  posts.filter (matchesFilters f)

/-- A Go slice expression `l[lo:hi]`: defined when `0 ≤ lo ≤ hi ≤ len(l)`,
a runtime panic (`none`) otherwise. -/
def goSlice (l : List α) (lo hi : Int) : Option (List α) :=
  if 0 ≤ lo ∧ lo ≤ hi ∧ hi ≤ (l.length : Int) then
    some ((l.drop lo.toNat).take (hi - lo).toNat)
  else none

/-- The page-related query state of a simulated request: the `page` parameter
(`none` = absent; `strconv.Atoi` maps a malformed value to `0`, so a
non-numeric parameter is modelled as `some 0`) and the post filters. -/
structure MockQuery where
  pageParam : Option Int
  filters : PostFilters
  deriving Repr, DecidableEq

/-- `ListPostsResponse` as produced by the mock. -/
structure ListPostsResponse where
  posts : List Post
  total : Int
  page : Int
  perPage : Int
  totalPages : Int
  deriving Repr, DecidableEq

/-- `ListWorkspacesResponse` as produced by the mock. -/
structure ListWorkspacesResponse where
  workspaces : List Workspace
  total : Int
  page : Int
  perPage : Int
  totalPages : Int
  deriving Repr, DecidableEq

/-- `ListAccountsResponse` as produced by the mock. -/
structure ListAccountsResponse where
  accounts : List Account
  total : Int
  page : Int
  perPage : Int
  totalPages : Int
  deriving Repr, DecidableEq

/-- `MockServer.handleListPosts` (src/unnamed/part_017 lines 389–427).
`none` models the slice-bounds panic of `filteredPosts[start:end]`. -/
def handleListPosts (posts : List Post) (q : MockQuery) : Option ListPostsResponse :=
  let page : Int := match q.pageParam with
    | none => 1
    | some v => v
  let filteredPosts := filterPosts posts q.filters
  let perPage := defaultPerPage
  let total : Int := filteredPosts.length
  let totalPages := (total + perPage - 1) / perPage
  let totalPages := if totalPages = 0 then 1 else totalPages
  let start := (page - 1) * perPage
  let stop := start + perPage          -- Go variable `end`
  let stop := if stop > total then total else stop
  if start < total then
    match goSlice filteredPosts start stop with
    | some sliced =>
      some { posts := sliced, total := total, page := page, perPage := perPage,
             totalPages := totalPages }
    | none => none
  else
    some { posts := [], total := total, page := page, perPage := perPage,
           totalPages := totalPages }

/-- `MockServer.handleListWorkspaces` (src/unnamed/part_017 lines 811–843).
Unlike the posts handler it never lifts `totalPages` to a minimum of 1. -/
def handleListWorkspaces (workspaces : List Workspace) (pageParam : Option Int) :
    Option ListWorkspacesResponse :=
  let page : Int := match pageParam with
    | none => 1
    | some v => v
  let perPage := defaultPerPage
  let total : Int := workspaces.length
  let totalPages := (total + perPage - 1) / perPage
  let start := (page - 1) * perPage
  let stop := start + perPage
  let stop := if stop > total then total else stop
  if start < total then
    match goSlice workspaces start stop with
    | some sliced =>
      some { workspaces := sliced, total := total, page := page,
             perPage := perPage, totalPages := totalPages }
    | none => none
  else
    some { workspaces := [], total := total, page := page, perPage := perPage,
           totalPages := totalPages }

/-- `MockServer.handleListAccounts` (src/unnamed/part_017 lines 846–878), the
same shape as the workspaces handler (and likewise without the minimum-1
clamp on `totalPages`). -/
def handleListAccounts (accounts : List Account) (pageParam : Option Int) :
    Option ListAccountsResponse :=
  let page : Int := match pageParam with
    | none => 1
    | some v => v
  let perPage := defaultPerPage
  let total : Int := accounts.length
  let totalPages := (total + perPage - 1) / perPage
  let start := (page - 1) * perPage
  let stop := start + perPage
  let stop := if stop > total then total else stop
  if start < total then
    match goSlice accounts start stop with
    | some sliced =>
      some { accounts := sliced, total := total, page := page,
             perPage := perPage, totalPages := totalPages }
    | none => none
  else
    some { accounts := [], total := total, page := page, perPage := perPage,
           totalPages := totalPages }

/-- `PostPageFetcher.FetchPage` (src/v1/posts_iterator.go) against the mock's
posts endpoint: the `page` parameter is sent only when `pageNum > 0`, and the
`ListPostsResponse` is mapped field-for-field into a `Page[Post]`.  A mock
panic surfaces as a transport error. -/
def fetchPostsPage (posts : List Post) (f : PostFilters) (pageNum : Int) :
    Except String (Page Post) :=
  let q : MockQuery :=
    { pageParam := if pageNum > 0 then some pageNum else none, filters := f }
  match handleListPosts posts q with
  | some resp =>
    .ok { items := resp.posts, total := resp.total, page := resp.page,
          perPage := resp.perPage, totalPages := resp.totalPages }
  | none => .error "mock server panic"

/-! ## The mock server: state, authentication, call counting, error injection
(src/unnamed/part_017) -/

/-- Go map lookup on an association list. -/
def alistGet (l : List (String × α)) (k : String) : Option α :=
  (l.find? (fun e => e.1 == k)).map (fun e => e.2)

/-- Go map assignment on an association list: replace the binding when the key
exists, append it otherwise. -/
def alistPut (l : List (String × α)) (k : String) (v : α) : List (String × α) :=
  match l with
  | [] => [(k, v)]
  | e :: rest => if e.1 == k then (k, v) :: rest else e :: alistPut rest k v

/-- `MockResponse` from the source; the configured `any` body is a `β`
(`none` = nil). -/
structure MockResponse (β : Type) where
  statusCode : Int
  body : Option β
  deriving Repr, DecidableEq

/-- `MockErrorResponse` from the source. -/
structure MockErrorResponse (β : Type) where
  statusCode : Int
  body : Option β
  headers : List (String × String)
  callThreshold : Int
  callCount : Int
  deriving Repr, DecidableEq

/-- The mutable fields of `MockServer` (the `httptest.Server` handle and the
lock are not data).  Maps are association lists keyed by strings
(`"METHOD /path"` for responses and counters, ids elsewhere). -/
structure MockState (β : Type) where
  apiKey : String
  workspaceID : String
  jobDelay : Int
  jobs : List (String × JobStatus)
  jobProgression : List (String × List JobStatus)
  jobProgressIndex : List (String × Int)
  posts : List Post
  accounts : List Account
  workspaces : List Workspace
  currentUser : Option User
  responses : List (String × MockResponse β)
  errorResponses : List (String × MockErrorResponse β)
  callCounts : List (String × Int)
  bulkOpLimit : Int
  deriving Repr, DecidableEq

/-- `MockServer.Reset` (src/unnamed/part_017 lines 92–108): every simulated
collection, job record, configured response, call counter and the artificial
delay are cleared; `apiKey`, `workspaceID` and `bulkOpLimit` are not touched. -/
def MockState.reset (m : MockState β) : MockState β :=
  { m with
    jobs := [], jobProgression := [], jobProgressIndex := [],
    posts := [], accounts := [], workspaces := [], currentUser := none,
    responses := [], errorResponses := [], callCounts := [], jobDelay := 0 }

/-- A simulated HTTP request as `handleRequest` consumes it: method, path, the
two authentication headers, and the query parameters of the list endpoints. -/
structure MockReq where
  method : String
  path : String
  authHeader : String
  workspaceHeader : String
  query : MockQuery
  deriving Repr, DecidableEq

/-- What a handler wrote as the response body. -/
inductive RespBody (β : Type) where
  | vacant
  | errJson (e : ErrorResponse)
  | raw (b : β)
  | postsList (r : ListPostsResponse)
  | workspacesList (r : ListWorkspacesResponse)
  | accountsList (r : ListAccountsResponse)
  | jobStatusBody (j : JobStatus)
  | userBody (u : User)
  | opaqueRoute (route : String)
  deriving Repr, DecidableEq

/-- A simulated HTTP response: status code, headers explicitly set on the
writer, and the encoded body. -/
structure MockHttpResponse (β : Type) where
  status : Int
  headers : List (String × String)
  body : RespBody β
  deriving Repr, DecidableEq

/-- `MockServer.handleJobStatus` (src/unnamed/part_017 lines 603–642): an
active progression snapshot at the current cursor wins over the static job
map; an unknown id is a structured 404.  `none` models the panic
`states[index]` would raise on a negative cursor (never reached: the cursor is
set to 0 and only incremented). -/
def handleJobStatus (m : MockState β) (r : MockReq) : Option (MockHttpResponse β) :=
  let parts := r.path.splitOn "/"
  if parts.length < 5 then
    some { status := 400, headers := [],
           body := .errJson { error := "bad_request", message := "Invalid job ID", code := "" } }
  else
    let jobID := (parts.get? 4).getD ""
    let fromJobsMap : Option (MockHttpResponse β) :=
      match alistGet m.jobs jobID with
      | some job => some { status := 200, headers := [], body := .jobStatusBody job }
      | none =>
        some { status := 404, headers := [],
               body := .errJson { error := "not_found", message := "Job not found", code := "" } }
    match alistGet m.jobProgression jobID with
    | some states =>
      let index := (alistGet m.jobProgressIndex jobID).getD 0
      if index < (states.length : Int) then
        if h : 0 ≤ index ∧ index.toNat < states.length then
          some { status := 200, headers := [],
                 body := .jobStatusBody (states.get ⟨index.toNat, h.2⟩) }
        else none
      else fromJobsMap
    | none => fromJobsMap

/-- `MockServer.handleGetMe` (src/unnamed/part_017 lines 794–808). -/
def handleGetMe (m : MockState β) : MockHttpResponse β :=
  match m.currentUser with
  | none =>
    { status := 404, headers := [],
      body := .errJson { error := "not_found", message := "User not found", code := "" } }
  | some u => { status := 200, headers := [], body := .userBody u }

/-- The route dispatch at the tail of `MockServer.handleRequest`
(src/unnamed/part_017 lines 301–386), reached only after authentication, call
counting, error injection and canned responses.  The POST job-creating routes
and the per-post GET/PATCH/DELETE routes mutate only job or post state the
claims never read; they are represented by an `opaqueRoute` marker carrying
the route name, with the state returned unchanged.  `none` propagates a
handler panic. -/
def dispatchResp (m : MockState β) (r : MockReq) : Option (MockHttpResponse β) :=
  if r.path.startsWith "/api/v1/job_status/" then
    handleJobStatus m r
  else if r.path == "/api/v1/posts" && r.method == "GET" then
    match handleListPosts m.posts r.query with
    | some resp => some { status := 200, headers := [], body := .postsList resp }
    | none => none
  else if r.path == "/api/v1/posts/schedule/publish" && r.method == "POST" then
    some { status := 200, headers := [], body := .opaqueRoute "publish" }
  else if r.path == "/api/v1/posts/schedule" && r.method == "POST" then
    some { status := 200, headers := [], body := .opaqueRoute "schedule" }
  else if r.path == "/api/v1/posts/recurring" && r.method == "POST" then
    some { status := 201, headers := [], body := .opaqueRoute "recurring" }
  else if r.path == "/api/v1/posts/auto-schedule" && r.method == "POST" then
    some { status := 201, headers := [], body := .opaqueRoute "auto-schedule" }
  else if r.path == "/api/v1/posts/recycle" && r.method == "POST" then
    some { status := 201, headers := [], body := .opaqueRoute "recycle" }
  else if r.path.startsWith "/api/v1/posts/" && (r.path.splitOn "/").length == 5 then
    some { status := 200, headers := [], body := .opaqueRoute "post-by-id" }
  else if r.path == "/api/v1/users/me" && r.method == "GET" then
    some (handleGetMe m)
  else if r.path == "/api/v1/workspaces" && r.method == "GET" then
    match handleListWorkspaces m.workspaces r.query.pageParam with
    | some resp => some { status := 200, headers := [], body := .workspacesList resp }
    | none => none
  else if r.path == "/api/v1/accounts" && r.method == "GET" then
    match handleListAccounts m.accounts r.query.pageParam with
    | some resp => some { status := 200, headers := [], body := .accountsList resp }
    | none => none
  else
    some { status := 404, headers := [],
           body := .errJson { error := "not_found", message := "Endpoint not found", code := "" } }

/-- The dispatched routes return their response with the state they were
given (the modelled routes mutate nothing). -/
def dispatch (m : MockState β) (r : MockReq) :
    Option (MockState β × MockHttpResponse β) :=
  (dispatchResp m r).map (fun resp => (m, resp))

/-- `MockServer.handleRequest` (src/unnamed/part_017 lines 237–386): validate
the two authentication headers, bump the per-`(method, path)` call counter,
fire a configured error response whose threshold the counter has reached,
else a canned response for the key, else dispatch to the route handlers.
The artificial-delay sleep has no observable effect on the state. -/
def handleRequest (m : MockState β) (r : MockReq) :
    Option (MockState β × MockHttpResponse β) :=
  if r.authHeader ≠ "Bearer-API " ++ m.apiKey then
    some (m, { status := 401, headers := [],
               body := .errJson { error := "unauthorized",
                                  message := "Missing or invalid API key", code := "" } })
  else if r.workspaceHeader ≠ m.workspaceID then
    some (m, { status := 400, headers := [],
               body := .errJson { error := "bad_request",
                                  message := "Missing or invalid workspace ID", code := "" } })
  else
    let key := r.method ++ " " ++ r.path
    let counts := alistPut m.callCounts key ((alistGet m.callCounts key).getD 0 + 1)
    let m := { m with callCounts := counts }
    match alistGet m.errorResponses key with
    | some errResp =>
      if (alistGet m.callCounts key).getD 0 ≥ errResp.callThreshold then
        some (m, { status := errResp.statusCode, headers := errResp.headers,
                   body := match errResp.body with
                     | some b => .raw b
                     | none => .vacant })
      else
        match alistGet m.responses key with
        | some resp =>
          some (m, { status := resp.statusCode, headers := [],
                     body := match resp.body with
                       | some b => .raw b
                       | none => .vacant })
        | none => dispatch m r
    | none =>
      match alistGet m.responses key with
      | some resp =>
        some (m, { status := resp.statusCode, headers := [],
                   body := match resp.body with
                     | some b => .raw b
                     | none => .vacant })
      | none => dispatch m r

/-- `n` successive calls of the same request against the mock, collecting the
responses in order; `none` if any call panics. -/
def runCalls (r : MockReq) :
    Nat → MockState β → Option (MockState β × List (MockHttpResponse β))
  | 0, m => some (m, [])
  | Nat.succ n, m =>
    match handleRequest m r with
    | none => none
    | some (m', resp) =>
      match runCalls r n m' with
      | none => none
      | some (m'', rest) => some (m'', resp :: rest)

/-- The header values a `Client` obtained from `MockServer.Client()` sends
with every request (src/unnamed/part_017 lines 71–78 and src/v1/client.go
lines 103–104). -/
structure ClientCreds where
  apiKey : String
  workspaceID : String
  deriving Repr, DecidableEq

/-- `MockServer.Client()`: a client carrying the server's generated key and
workspace id. -/
def MockState.client (m : MockState β) : ClientCreds :=
  { apiKey := m.apiKey, workspaceID := m.workspaceID }

/-- A request as issued by `Client.do`: the authentication headers built from
the client's credentials. -/
def clientRequest (c : ClientCreds) (method path : String) (q : MockQuery) : MockReq :=
  { method := method, path := path,
    authHeader := "Bearer-API " ++ c.apiKey,
    workspaceHeader := c.workspaceID, query := q }

/-! ## Evaluation lemmas for `GenericIterator.next` -/

/-- `Next` under an already-cancelled context: store the cause, return false. -/
theorem next_done (fetch : Int → Except String (Page T)) (ctx : GoCtx)
    (it : GenericIterator T) (hd : ctx.done = true) :
    GenericIterator.next fetch ctx it =
      { state := { it with err := some ctx.errMsg }, ret := false,
        written := none, fetched := false } := by
  simp [GenericIterator.next, hd]

/-- `Next` on an uninitialized iterator behaves like `Next` on its initialized
normalisation. -/
theorem next_uninited (fetch : Int → Except String (Page T)) (ctx : GoCtx)
    (it : GenericIterator T) (hd : ctx.done = false) (hin : it.inited = false) :
    GenericIterator.next fetch ctx it =
      GenericIterator.next fetch ctx { it with currentPage := 0, inited := true } := by
  simp [GenericIterator.next, hd, hin]

/-- `Next` at the end of the stream: no fetch, state untouched, return false. -/
theorem next_terminal (fetch : Int → Except String (Page T)) (ctx : GoCtx)
    (it : GenericIterator T) (hd : ctx.done = false) (hin : it.inited = true)
    (ht : 0 < it.totalPages ∧ it.totalPages ≤ it.currentPage) :
    GenericIterator.next fetch ctx it =
      { state := it, ret := false, written := none, fetched := false } := by
  simp [GenericIterator.next, hd, hin, ht.1, ht.2]

/-- `Next` when the fetch of the incremented page fails. -/
theorem next_fetch_error (fetch : Int → Except String (Page T)) (ctx : GoCtx)
    (it : GenericIterator T) (e : String) (hd : ctx.done = false)
    (hin : it.inited = true) (ht : ¬(0 < it.totalPages ∧ it.totalPages ≤ it.currentPage))
    (hf : fetch (it.currentPage + 1) = .error e) :
    GenericIterator.next fetch ctx it =
      { state := { it with currentPage := it.currentPage + 1, err := some e },
        ret := false, written := none, fetched := true } := by
  simp only [GenericIterator.next, hd, hin, Bool.false_eq_true, if_false, Bool.not_true,
    ge_iff_le, gt_iff_lt]
  rw [if_neg ht, hf]

/-- `Next` when the fetch of the incremented page succeeds. -/
theorem next_fetch_ok (fetch : Int → Except String (Page T)) (ctx : GoCtx)
    (it : GenericIterator T) (pg : Page T) (hd : ctx.done = false)
    (hin : it.inited = true) (ht : ¬(0 < it.totalPages ∧ it.totalPages ≤ it.currentPage))
    (hf : fetch (it.currentPage + 1) = .ok pg) :
    GenericIterator.next fetch ctx it =
      { state := { it with currentPage := it.currentPage + 1,
                           totalPages := (if it.currentPage + 1 = 1 then pg.totalPages
                                          else it.totalPages) },
        ret := decide (it.currentPage + 1 <
                 (if it.currentPage + 1 = 1 then pg.totalPages else it.totalPages)),
        written := some pg, fetched := true } := by
  simp only [GenericIterator.next, hd, hin, Bool.false_eq_true, if_false, Bool.not_true,
    ge_iff_le, gt_iff_lt]
  rw [if_neg ht, hf]

/-- The return-iff contract for an initialized iterator. -/
theorem next_ret_iff_inited (fetch : Int → Except String (Page T)) (ctx : GoCtx)
    (it : GenericIterator T) (hd : ctx.done = false) (hin : it.inited = true) :
    ((GenericIterator.next fetch ctx it).ret = true ↔
      ((GenericIterator.next fetch ctx it).written.isSome = true ∧
        (GenericIterator.next fetch ctx it).state.currentPage <
          (GenericIterator.next fetch ctx it).state.totalPages)) := by
  by_cases ht : 0 < it.totalPages ∧ it.totalPages ≤ it.currentPage
  · rw [next_terminal fetch ctx it hd hin ht]; simp
  · cases hf : fetch (it.currentPage + 1) with
    | error e => rw [next_fetch_error fetch ctx it e hd hin ht hf]; simp
    | ok pg => rw [next_fetch_ok fetch ctx it pg hd hin ht hf]; simp

/-- The stored error of an initialized iterator is never cleared by `Next`. -/
theorem next_err_mono_inited (fetch : Int → Except String (Page T)) (ctx : GoCtx)
    (it : GenericIterator T) (hd : ctx.done = false) (hin : it.inited = true)
    (he : it.err.isSome = true) :
    (GenericIterator.next fetch ctx it).state.err.isSome = true := by
  by_cases ht : 0 < it.totalPages ∧ it.totalPages ≤ it.currentPage
  · rw [next_terminal fetch ctx it hd hin ht]; simpa using he
  · cases hf : fetch (it.currentPage + 1) with
    | error e => rw [next_fetch_error fetch ctx it e hd hin ht hf]; simp
    | ok pg => rw [next_fetch_ok fetch ctx it pg hd hin ht hf]; simpa using he

/-! ## Claim C2: the return contract of `GenericIterator.Next` -/

/-- C2: a `Next` call returns `true` iff it wrote a page into the
out-parameter and more pages remain (`currentPage < totalPages` on the
resulting state); once `currentPage == totalPages` on an initialized,
error-free iterator it returns `false` leaving the state (hence `Err()` nil)
untouched; and when the supplied context is already cancelled it returns
`false` with `Err()` reporting the cancellation cause. -/
theorem next_return_contract (fetch : Int → Except String (Page T)) (ctx : GoCtx)
    (it : GenericIterator T) :
    ((GenericIterator.next fetch ctx it).ret = true ↔
      ((GenericIterator.next fetch ctx it).written.isSome = true ∧
        (GenericIterator.next fetch ctx it).state.currentPage <
          (GenericIterator.next fetch ctx it).state.totalPages)) ∧
    (ctx.done = false → it.inited = true → it.err = none → 0 < it.totalPages →
      it.currentPage = it.totalPages →
      (GenericIterator.next fetch ctx it).ret = false ∧
        (GenericIterator.next fetch ctx it).state = it ∧
        (GenericIterator.next fetch ctx it).state.err = none) ∧
    (ctx.done = true →
      (GenericIterator.next fetch ctx it).ret = false ∧
        (GenericIterator.next fetch ctx it).state.err = some ctx.errMsg) := by
  refine ⟨?_, ?_, ?_⟩
  · by_cases hd : ctx.done
    · rw [next_done fetch ctx it hd]; simp
    · have hd' : ctx.done = false := by simpa using hd
      by_cases hin : it.inited
      · exact next_ret_iff_inited fetch ctx it hd' hin
      · have hin' : it.inited = false := by simpa using hin
        rw [next_uninited fetch ctx it hd' hin']
        exact next_ret_iff_inited fetch ctx _ hd' rfl
  · intro hd hin he hpos heq
    rw [next_terminal fetch ctx it hd hin ⟨hpos, le_of_eq heq.symm⟩]
    exact ⟨rfl, rfl, he⟩
  · intro hd
    rw [next_done fetch ctx it hd]
    exact ⟨rfl, rfl⟩

/-- An iterator standing at `currentPage = totalPages = 3`. -/
def atEndIter : GenericIterator Post :=
  { currentPage := 3, totalPages := 3, err := none, inited := true }

/-- A context that is already cancelled. -/
def cancelledCtx : GoCtx := { done := true, errMsg := "context canceled" }

/-- A fetch that always succeeds with an empty page (never reached in the
witness scenarios). -/
def idlePostsFetch : Int → Except String (Page Post) := fun _ =>
  .ok { items := [], total := 0, page := 1, perPage := 10, totalPages := 1 }

/-- Witness for `next_return_contract` at a concrete iterator state. -/
theorem next_return_contract_witness :
    ((GenericIterator.next idlePostsFetch liveCtx atEndIter).ret = false ∧
      (GenericIterator.next idlePostsFetch liveCtx atEndIter).state.err = none) ∧
    ((GenericIterator.next idlePostsFetch cancelledCtx atEndIter).ret = false ∧
      (GenericIterator.next idlePostsFetch cancelledCtx atEndIter).state.err =
        some "context canceled") :=
  ⟨⟨((next_return_contract idlePostsFetch liveCtx atEndIter).2.1 rfl rfl rfl
        (by decide) rfl).1,
    ((next_return_contract idlePostsFetch liveCtx atEndIter).2.1 rfl rfl rfl
        (by decide) rfl).2.2⟩,
    (next_return_contract idlePostsFetch cancelledCtx atEndIter).2.2 rfl⟩

/-! ## Claim C5: behaviour of the iterator after a failed fetch -/

/-- An iterator that already holds a stored fetch error, standing mid-stream
(last attempted page was 2 of 4). -/
def errIter : GenericIterator Post :=
  { currentPage := 2, totalPages := 4, err := some "HTTP 500: Internal Server Error",
    inited := true }

/-- A fetch that succeeds with page 3 of 4. -/
def recoveringFetch : Int → Except String (Page Post) := fun _ =>
  .ok { items := [], total := 35, page := 3, perPage := 10, totalPages := 4 }

/-- C5 counterexample: calling `Next` on an iterator whose `Err()` is already
non-nil does attempt another fetch, advances `currentPage`, and can even
return `true` — the state is not frozen in the errored condition, because
`Next` never consults `it.err`. -/
theorem errored_iterator_not_frozen :
    (GenericIterator.next recoveringFetch liveCtx errIter).fetched = true ∧
    (GenericIterator.next recoveringFetch liveCtx errIter).ret = true ∧
    (GenericIterator.next recoveringFetch liveCtx errIter).state.currentPage = 3 := by
  decide

/-- C5 (amended): a failed fetch stores the error and makes that call return
`false`; the stored error is never cleared by any later call (`Err()` stays
non-nil); but the iterator is not frozen — a later `Next` call that is not at
the terminal-page condition attempts another fetch and advances
`currentPage`. -/
theorem iterator_error_behaviour (fetch : Int → Except String (Page T))
    (ctx : GoCtx) (it : GenericIterator T) :
    (∀ e, ctx.done = false → it.inited = true →
      ¬(0 < it.totalPages ∧ it.totalPages ≤ it.currentPage) →
      fetch (it.currentPage + 1) = .error e →
      (GenericIterator.next fetch ctx it).ret = false ∧
        (GenericIterator.next fetch ctx it).state.err = some e ∧
        (GenericIterator.next fetch ctx it).fetched = true) ∧
    (it.err.isSome = true →
      (GenericIterator.next fetch ctx it).state.err.isSome = true) ∧
    (ctx.done = false → it.inited = true →
      ¬(0 < it.totalPages ∧ it.totalPages ≤ it.currentPage) →
      (GenericIterator.next fetch ctx it).fetched = true ∧
        (GenericIterator.next fetch ctx it).state.currentPage = it.currentPage + 1) := by
  refine ⟨?_, ?_, ?_⟩
  · intro e hd hin ht hf
    rw [next_fetch_error fetch ctx it e hd hin ht hf]
    exact ⟨rfl, rfl, rfl⟩
  · intro he
    by_cases hd : ctx.done
    · rw [next_done fetch ctx it hd]; simp
    · have hd' : ctx.done = false := by simpa using hd
      by_cases hin : it.inited
      · exact next_err_mono_inited fetch ctx it hd' hin he
      · have hin' : it.inited = false := by simpa using hin
        rw [next_uninited fetch ctx it hd' hin']
        exact next_err_mono_inited fetch ctx _ hd' rfl he
  · intro hd hin ht
    cases hf : fetch (it.currentPage + 1) with
    | error e => rw [next_fetch_error fetch ctx it e hd hin ht hf]; exact ⟨rfl, rfl⟩
    | ok pg => rw [next_fetch_ok fetch ctx it pg hd hin ht hf]; exact ⟨rfl, rfl⟩

/-- A fetch that always fails. -/
def failingFetch : Int → Except String (Page Post) := fun _ =>
  .error "HTTP 500: Internal Server Error"

/-- A fresh (but initialized) iterator about to fetch its first page. -/
def freshInitedIter : GenericIterator Post :=
  { currentPage := 0, totalPages := 0, err := none, inited := true }

/-- Witness for `iterator_error_behaviour`: a concrete failing fetch on a
fresh iterator, and a concrete errored iterator that fetches again. -/
theorem iterator_error_behaviour_witness :
    ((GenericIterator.next failingFetch liveCtx freshInitedIter).ret = false ∧
      (GenericIterator.next failingFetch liveCtx freshInitedIter).state.err =
        some "HTTP 500: Internal Server Error" ∧
      (GenericIterator.next failingFetch liveCtx freshInitedIter).fetched = true) ∧
    ((GenericIterator.next recoveringFetch liveCtx errIter).fetched = true ∧
      (GenericIterator.next recoveringFetch liveCtx errIter).state.currentPage = 2 + 1) :=
  ⟨(iterator_error_behaviour failingFetch liveCtx freshInitedIter).1
      "HTTP 500: Internal Server Error" rfl rfl (by decide) rfl,
    (iterator_error_behaviour recoveringFetch liveCtx errIter).2.2 rfl rfl (by decide)⟩

/-! ## Claim C4: terminal statuses in `WaitForJob` -/

/-- C4: on a `completed` status `WaitForJob` copies the server-supplied result
(or the default success result `JobResult{Success: true}`) and returns nil; on
`failed` or `cancelled` it copies the server-supplied result (or the default
failure result carrying the status error text) and returns the non-nil error
`"job <status>: <error>"`, naming the terminal status and the message. -/
theorem waitForJob_terminal (prev : JobResult) (st : JobStatus) :
    (st.status = "completed" →
      waitForJobStep prev st =
        .finished
          (st.result.getD
            { success := true, postIDs := [], message := "", error := "", data := [] })
          none) ∧
    (st.status = "failed" ∨ st.status = "cancelled" →
      waitForJobStep prev st =
        .finished
          (st.result.getD
            { success := false, postIDs := [], message := "", error := st.error,
              data := [] })
          (some ("job " ++ st.status ++ ": " ++ st.error)) ∧
      some ("job " ++ st.status ++ ": " ++ st.error) ≠ (none : Option String)) := by
  constructor
  · intro h
    simp [waitForJobStep, h]
  · rintro (h | h) <;> simp [waitForJobStep, h]

/-- A job that completed with an explicit result. -/
def completedJob : JobStatus :=
  { id := "job-1", status := "completed", progress := 100,
    result := some { success := true, postIDs := ["p1"], message := "done",
                     error := "", data := [] },
    error := "" }

/-- A job that failed without a server-supplied result. -/
def failedJob : JobStatus :=
  { id := "job-2", status := "failed", progress := 40, result := none,
    error := "rate limited" }

/-- The poller's out-parameter before the terminal iteration. -/
def preResult : JobResult :=
  { success := false, postIDs := [], message := "", error := "", data := [] }

/-- Witness for `waitForJob_terminal` at a completed and at a failed job. -/
theorem waitForJob_terminal_witness :
    waitForJobStep preResult completedJob =
      .finished { success := true, postIDs := ["p1"], message := "done",
                  error := "", data := [] } none ∧
    waitForJobStep preResult failedJob =
      .finished { success := false, postIDs := [], message := "",
                  error := "rate limited", data := [] }
        (some "job failed: rate limited") :=
  ⟨(waitForJob_terminal preResult completedJob).1 rfl,
    ((waitForJob_terminal preResult failedJob).2 (Or.inl rfl)).1⟩

/-! ## Claim C3: the backoff/jitter recurrence of `WaitForJob` -/

/-- The default `maxDelay` (30s) in nanoseconds. -/
def cxMaxDelay : Int := 30 * 1000000000

/-- A jitter sample of 400ms drawn from the default 500ms jitter bound. -/
def cxJit : Int := jitterSample (500 * millisecond) 400

/-- The delay reached from the default initial delay (1s) after five
non-terminal iterations whose jitter samples were all 400ms:
1s → 2.4s → 5.2s → 10.8s → 22s → 30.4s. -/
def cxDelay5 : Int :=
  List.foldl (fun d jit => waitNextDelay cxMaxDelay d jit) 1000000000
    [cxJit, cxJit, cxJit, cxJit, cxJit]

/-- C3 counterexample: at the sixth iteration the delay reached with the
default options is 30.4s, so its deterministic part exceeds `maxDelay`, and
the next wait computed by the code (30.8s) is not "the previous delay doubled
and capped at `maxDelay`, plus the jitter" (30.4s): the jitter is added into
`delay` itself and accumulates past the cap. -/
theorem waitDelay_spec_counterexample :
    waitNextDelay cxMaxDelay cxDelay5 cxJit ≠ specNextDelay cxMaxDelay cxDelay5 cxJit ∧
    ¬(waitNextDelayDet cxMaxDelay cxDelay5 ≤ cxMaxDelay) := by
  decide

/-- C3 (amended): on a non-terminal status the next wait is the previous delay
doubled and capped at `maxDelay` — but only when the previous delay was below
`maxDelay`; otherwise the previous delay is kept as is — plus a jitter sample
drawn uniformly from `[0, jitter)` (in whole milliseconds).  The jitter is
added into the delay, so the deterministic part is bounded by
`max delay maxDelay`, not by `maxDelay` alone. -/
theorem waitDelay_amended (maxDelay delay jitter : Int) (r : Nat)
    (hjit : 0 < (jitter / millisecond).toNat) :
    (delay < maxDelay →
      waitNextDelay maxDelay delay (jitterSample jitter r) =
        min (delay * 2) maxDelay + jitterSample jitter r) ∧
    (maxDelay ≤ delay →
      waitNextDelay maxDelay delay (jitterSample jitter r) =
        delay + jitterSample jitter r) ∧
    0 ≤ jitterSample jitter r ∧ jitterSample jitter r < jitter ∧
    waitNextDelayDet maxDelay delay ≤ max delay maxDelay := by
  refine ⟨?_, ?_, ?_, ?_, ?_⟩
  · intro h
    simp only [waitNextDelay, h, if_true]
    rw [min_def]
    split_ifs <;> omega
  · intro h
    simp only [waitNextDelay]
    rw [if_neg (by omega)]
  · exact mul_nonneg (Int.ofNat_nonneg _) (by norm_num [millisecond])
  · have hq : r % (jitter / millisecond).toNat < (jitter / millisecond).toNat :=
      Nat.mod_lt _ hjit
    simp only [jitterSample, millisecond] at *
    generalize r % (jitter / 1000000).toNat = k at hq
    omega
  · simp only [waitNextDelayDet]
    split_ifs <;> omega

/-- Witness for `waitDelay_amended` with the default options (`maxDelay` 30s,
jitter bound 500ms) at a previous delay of 8s. -/
theorem waitDelay_amended_witness :
    (8000000000 < cxMaxDelay →
      waitNextDelay cxMaxDelay 8000000000 (jitterSample (500 * millisecond) 400) =
        min (8000000000 * 2) cxMaxDelay + jitterSample (500 * millisecond) 400) ∧
    (cxMaxDelay ≤ 8000000000 →
      waitNextDelay cxMaxDelay 8000000000 (jitterSample (500 * millisecond) 400) =
        8000000000 + jitterSample (500 * millisecond) 400) ∧
    0 ≤ jitterSample (500 * millisecond) 400 ∧
    jitterSample (500 * millisecond) 400 < 500 * millisecond ∧
    waitNextDelayDet cxMaxDelay 8000000000 ≤ max 8000000000 cxMaxDelay :=
  waitDelay_amended cxMaxDelay 8000000000 (500 * millisecond) 400 (by decide)

/-! ## Claim C9: the list handler panics on a non-positive page parameter -/

/-- A stored post used to show the panic also hits non-empty collections. -/
def wirePost : Post :=
  { id := "post-1", text := "Hello world", url := "", state := "published",
    ty := "post", accountID := "acc-1",
    user := { id := "u1", email := "", name := "", firstName := "", picture := "" },
    scheduledAt := 0, postLink := "", hasMedia := false, network := "twitter" }

/-- C9 evaluation at the failing input: an authenticated
`GET /api/v1/posts?page=0` — which is also what `strconv.Atoi` produces for a
non-numeric `page` value — drives `start = (0-1)*10 = -10` into the slice
expression `filteredPosts[-10:0]`, a Go slice-bounds panic (`none` in the
model), instead of any structured response; likewise for a negative page, and
for the accounts endpoint. -/
theorem listPosts_panics_on_nonpositive_page :
    handleListPosts [] { pageParam := some 0, filters := noFilters } = none ∧
    handleListPosts [wirePost] { pageParam := some 0, filters := noFilters } = none ∧
    handleListPosts [wirePost] { pageParam := some (-1), filters := noFilters } = none ∧
    handleListAccounts ([] : List Account) (some 0) = none := by
  decide

/-! ## Characterising the list handlers -/

/-- The slice the mock returns for (1-based) page `p` at page size 10: ten
items starting at offset `(p-1)*10`, or fewer (possibly none) at the end. -/
def pageChunk (l : List α) (p : Int) : List α :=
  (l.drop ((p - 1) * 10).toNat).take 10

/-- For an in-range page the Go slice `l[start:end]` is exactly `pageChunk`. -/
theorem goSlice_page (l : List α) (p : Int) (hp : 1 ≤ p)
    (hlt : (p - 1) * 10 < (l.length : Int)) :
    goSlice l ((p - 1) * 10)
      (if (p - 1) * 10 + 10 > (l.length : Int) then (l.length : Int)
       else (p - 1) * 10 + 10) = some (pageChunk l p) := by
  rcases le_or_lt ((p - 1) * 10 + 10) (l.length : Int) with hc | hc
  · rw [if_neg (by omega)]
    unfold goSlice
    rw [if_pos ⟨by omega, by omega, by omega⟩]
    congr 1
    unfold pageChunk
    congr 1
    omega
  · rw [if_pos (by omega)]
    unfold goSlice
    rw [if_pos ⟨by omega, by omega, by omega⟩]
    congr 1
    have hlen : (l.drop ((p - 1) * 10).toNat).length = l.length - ((p - 1) * 10).toNat :=
      List.length_drop _ _
    unfold pageChunk
    rw [List.take_of_length_le (by omega), List.take_of_length_le (by omega)]

/-- Beyond the last page the chunk is empty. -/
theorem pageChunk_out_of_range (l : List α) (p : Int)
    (h : (l.length : Int) ≤ (p - 1) * 10) : pageChunk l p = [] := by
  unfold pageChunk
  rw [List.drop_eq_nil_of_le (by omega)]
  rfl

/-- Closed form of `handleListPosts` for a positive page number: no panic, the
slice of the filtered view, and metadata computed over the filtered view with
the minimum-1 clamp on `totalPages`. -/
theorem handleListPosts_eq (posts : List Post) (f : PostFilters) (p : Int)
    (hp : 1 ≤ p) :
    handleListPosts posts { pageParam := some p, filters := f } =
      some { posts := pageChunk (filterPosts posts f) p,
             total := ((filterPosts posts f).length : Int),
             page := p, perPage := 10,
             totalPages :=
               (if (((filterPosts posts f).length : Int) + 10 - 1) / 10 = 0 then 1
                else (((filterPosts posts f).length : Int) + 10 - 1) / 10) } := by
  simp only [handleListPosts, defaultPerPage]
  by_cases hlt : (p - 1) * 10 < ((filterPosts posts f).length : Int)
  · rw [if_pos hlt, goSlice_page (filterPosts posts f) p hp hlt]
  · rw [if_neg hlt, pageChunk_out_of_range (filterPosts posts f) p (by omega)]

/-- Closed form of `handleListWorkspaces` for a positive page number: same
slicing, but `totalPages` is the bare ceiling with no minimum-1 clamp. -/
theorem handleListWorkspaces_eq (ws : List Workspace) (p : Int) (hp : 1 ≤ p) :
    handleListWorkspaces ws (some p) =
      some { workspaces := pageChunk ws p,
             total := ((ws.length : Int)),
             page := p, perPage := 10,
             totalPages := ((ws.length : Int) + 10 - 1) / 10 } := by
  unfold handleListWorkspaces
  simp only [defaultPerPage]
  by_cases hlt : (p - 1) * 10 < ((ws.length : Int))
  · rw [if_pos hlt, goSlice_page ws p hp hlt]
  · rw [if_neg hlt, pageChunk_out_of_range ws p (by omega)]

/-- Closed form of `handleListAccounts` for a positive page number. -/
theorem handleListAccounts_eq (accs : List Account) (p : Int) (hp : 1 ≤ p) :
    handleListAccounts accs (some p) =
      some { accounts := pageChunk accs p,
             total := ((accs.length : Int)),
             page := p, perPage := 10,
             totalPages := ((accs.length : Int) + 10 - 1) / 10 } := by
  unfold handleListAccounts
  simp only [defaultPerPage]
  by_cases hlt : (p - 1) * 10 < ((accs.length : Int))
  · rw [if_pos hlt, goSlice_page accs p hp hlt]
  · rw [if_neg hlt, pageChunk_out_of_range accs p (by omega)]

/-! ## Claim C6: `total_pages` metadata across the list endpoints -/

/-- C6 counterexample: the workspaces endpoint with an empty collection
reports `total_pages = 0`, not the claimed minimum of 1 — only the posts
handler clamps `totalPages` to 1. -/
theorem workspaces_empty_total_pages_zero :
    handleListWorkspaces ([] : List Workspace) none =
      some { workspaces := [], total := 0, page := 1, perPage := 10,
             totalPages := 0 } ∧
    (0 : Int) ≠ 1 := by
  decide

/-- C6 (amended): for every positive page number, the posts endpoint reports
`total_pages = ceil(total/per_page)` clamped to a minimum of 1 (so 1 when the
filtered view is empty), while the workspaces and accounts endpoints report
the bare `ceil(total/per_page)` — which is 0 when the collection is empty;
in all three, `total` counts the (for posts: filtered) stored collection and
a page beyond the last yields an empty items list in a success response, not
an error. -/
theorem list_endpoints_total_pages (posts : List Post) (f : PostFilters)
    (ws : List Workspace) (accs : List Account) (p : Int) (hp : 1 ≤ p) :
    (∃ r, handleListPosts posts { pageParam := some p, filters := f } = some r ∧
      r.total = ((filterPosts posts f).length : Int) ∧
      r.totalPages = max 1 ((r.total + 9) / 10) ∧
      (r.total ≤ (p - 1) * 10 → r.posts = [])) ∧
    (∃ r, handleListWorkspaces ws (some p) = some r ∧
      r.total = (ws.length : Int) ∧
      r.totalPages = (r.total + 9) / 10 ∧
      (ws = [] → r.totalPages = 0) ∧
      (r.total ≤ (p - 1) * 10 → r.workspaces = [])) ∧
    (∃ r, handleListAccounts accs (some p) = some r ∧
      r.total = (accs.length : Int) ∧
      r.totalPages = (r.total + 9) / 10 ∧
      (r.total ≤ (p - 1) * 10 → r.accounts = [])) := by
  refine ⟨⟨_, handleListPosts_eq posts f p hp, rfl, ?_, ?_⟩,
    ⟨_, handleListWorkspaces_eq ws p hp, rfl, ?_, ?_, ?_⟩,
    ⟨_, handleListAccounts_eq accs p hp, rfl, ?_, ?_⟩⟩
  · dsimp only
    split_ifs with h0 <;> omega
  · dsimp only
    exact fun h => pageChunk_out_of_range _ p h
  · dsimp only
    omega
  · intro h
    subst h
    dsimp only
    simp
  · dsimp only
    exact fun h => pageChunk_out_of_range _ p h
  · dsimp only
    omega
  · dsimp only
    exact fun h => pageChunk_out_of_range _ p h

/-- Concrete workspaces used in the C6 witness. -/
def wireWorkspace : Workspace :=
  { id := "ws-1", owner := { id := "u1", email := "", name := "", firstName := "",
                             picture := "" },
    name := "Team", members := [], plan := "pro", picture := "" }

/-- Witness for `list_endpoints_total_pages` at page 2 over small concrete
collections. -/
theorem list_endpoints_total_pages_witness :
    (∃ r, handleListPosts [wirePost] { pageParam := some 2, filters := noFilters } =
        some r ∧
      r.total = ((filterPosts [wirePost] noFilters).length : Int) ∧
      r.totalPages = max 1 ((r.total + 9) / 10) ∧
      (r.total ≤ (2 - 1) * 10 → r.posts = [])) ∧
    (∃ r, handleListWorkspaces [wireWorkspace] (some 2) = some r ∧
      r.total = (([wireWorkspace] : List Workspace).length : Int) ∧
      r.totalPages = (r.total + 9) / 10 ∧
      (([wireWorkspace] : List Workspace) = [] → r.totalPages = 0) ∧
      (r.total ≤ (2 - 1) * 10 → r.workspaces = [])) ∧
    (∃ r, handleListAccounts ([] : List Account) (some 2) = some r ∧
      r.total = (([] : List Account).length : Int) ∧
      r.totalPages = (r.total + 9) / 10 ∧
      (r.total ≤ (2 - 1) * 10 → r.accounts = [])) :=
  list_endpoints_total_pages [wirePost] noFilters [wireWorkspace] [] 2 (by decide)

/-! ## Claim C8: composition of independent list filters -/

/-- Two filter configurations are independent when no filter dimension is
active in both — each query parameter of the combined request comes from at
most one of them. -/
def FiltersIndependent (f g : PostFilters) : Prop :=
  (f.state = "" ∨ g.state = "") ∧ (f.states = [] ∨ g.states = []) ∧
  (f.query = "" ∨ g.query = "") ∧ (f.accountIDs = [] ∨ g.accountIDs = []) ∧
  (f.postType = "" ∨ g.postType = "") ∧ (f.memberID = "" ∨ g.memberID = "") ∧
  (f.fromTime = 0 ∨ g.fromTime = 0) ∧ (f.toTime = 0 ∨ g.toTime = 0)

/-- The single request that carries the query parameters of both filter
configurations (for each dimension, the active one). -/
def combineFilters (f g : PostFilters) : PostFilters :=
  { state := if f.state = "" then g.state else f.state,
    states := f.states ++ g.states,
    query := if f.query = "" then g.query else f.query,
    accountIDs := f.accountIDs ++ g.accountIDs,
    postType := if f.postType = "" then g.postType else f.postType,
    memberID := if f.memberID = "" then g.memberID else f.memberID,
    fromTime := if f.fromTime = 0 then g.fromTime else f.fromTime,
    toTime := if f.toTime = 0 then g.toTime else f.toTime }

/-- A string-valued filter dimension distributes over independent combination. -/
theorem combine_str_dim (fs gs : String) (test : String → Bool)
    (h : fs = "" ∨ gs = "") :
    ((if fs = "" then gs else fs) == "" || test (if fs = "" then gs else fs)) =
      ((fs == "" || test fs) && (gs == "" || test gs)) := by
  rcases h with h | h
  · subst h; simp
  · subst h
    by_cases hf : fs = ""
    · subst hf; simp
    · simp [hf]

/-- A list-valued filter dimension distributes over independent combination. -/
theorem combine_list_dim (fl gl : List String) (test : String → Bool)
    (h : fl = [] ∨ gl = []) :
    ((fl ++ gl).isEmpty || (fl ++ gl).any test) =
      ((fl.isEmpty || fl.any test) && (gl.isEmpty || gl.any test)) := by
  rcases h with h | h <;> subst h <;> simp

/-- A time-valued filter dimension distributes over independent combination. -/
theorem combine_time_dim (ft gt : GoTime) (test : GoTime → Bool)
    (h : ft = 0 ∨ gt = 0) :
    ((if ft = 0 then gt else ft) == 0 || test (if ft = 0 then gt else ft)) =
      ((ft == 0 || test ft) && (gt == 0 || test gt)) := by
  rcases h with h | h
  · subst h; simp
  · subst h
    by_cases hf : ft = 0
    · subst hf; simp
    · simp [hf]

set_option maxHeartbeats 1000000 in
/-- The combined request's filter predicate is the conjunction of the two
individual predicates. -/
theorem matchesFilters_combine (f g : PostFilters) (post : Post)
    (h : FiltersIndependent f g) :
    matchesFilters (combineFilters f g) post =
      (matchesFilters f post && matchesFilters g post) := by
  obtain ⟨h1, h2, h3, h4, h5, h6, h7, h8⟩ := h
  simp only [matchesFilters, combineFilters]
  rw [combine_str_dim f.state g.state (fun v => post.state == v) h1,
    combine_list_dim f.states g.states (fun s => post.state == s) h2,
    combine_str_dim f.query g.query
      (fun v => goContains (goToLower post.text) (goToLower v)) h3,
    combine_list_dim f.accountIDs g.accountIDs (fun a => post.accountID == a) h4,
    combine_str_dim f.postType g.postType (fun v => post.ty == v) h5,
    combine_str_dim f.memberID g.memberID (fun v => post.user.id == v) h6,
    combine_time_dim f.fromTime g.fromTime
      (fun v => !decide (post.scheduledAt < v)) h7,
    combine_time_dim f.toTime g.toTime
      (fun v => !decide (post.scheduledAt > v)) h8]
  simp only [Bool.and_comm, Bool.and_left_comm, Bool.and_assoc]

/-- Intersection of two filtered views of the same list is the view filtered
by the conjunction. -/
theorem filter_inter_filter (posts : List Post) (m1 m2 : Post → Bool) :
    (posts.filter m1) ∩ (posts.filter m2) =
      posts.filter (fun x => m1 x && m2 x) := by
  rw [List.inter_def]
  have hpt : ∀ x ∈ posts.filter m1, (posts.filter m2).elem x = m2 x := by
    intro x hx
    have hxp : x ∈ posts := (List.mem_filter.mp hx).1
    by_cases hm : m2 x
    · simp [List.elem_iff, List.mem_filter, hxp, hm]
    · simp [List.elem_iff, List.mem_filter, hm]
  rw [List.filter_congr hpt, List.filter_filter]
  exact List.filter_congr fun x _ => Bool.and_comm (m2 x) (m1 x)

/-- C8: for independent filters the combined request's filtered view is
exactly the intersection of the two single-filter views, and both the
metadata (`total`, `total_pages`) and the returned slice are computed over
that filtered view, not the unfiltered collection. -/
theorem filter_composition (posts : List Post) (f g : PostFilters)
    (h : FiltersIndependent f g) (p : Int) (hp : 1 ≤ p) :
    filterPosts posts (combineFilters f g) =
      (filterPosts posts f) ∩ (filterPosts posts g) ∧
    (∃ r, handleListPosts posts { pageParam := some p,
                                  filters := combineFilters f g } = some r ∧
      r.total = ((filterPosts posts (combineFilters f g)).length : Int) ∧
      r.totalPages = max 1 ((r.total + 9) / 10) ∧
      r.posts = pageChunk (filterPosts posts (combineFilters f g)) p) := by
  have hfilter : filterPosts posts (combineFilters f g) =
      (filterPosts posts f) ∩ (filterPosts posts g) := by
    unfold filterPosts
    rw [filter_inter_filter]
    exact List.filter_congr fun x _ => matchesFilters_combine f g x h
  refine ⟨hfilter, _, handleListPosts_eq posts (combineFilters f g) p hp, rfl, ?_, rfl⟩
  dsimp only
  split_ifs with h0 <;> omega

/-- A published post on account `acc-1`. -/
def fpPostA : Post := { wirePost with id := "A", state := "published", accountID := "acc-1" }

/-- A draft post on account `acc-1`. -/
def fpPostB : Post := { wirePost with id := "B", state := "draft", accountID := "acc-1" }

/-- A published post on account `acc-2`. -/
def fpPostC : Post := { wirePost with id := "C", state := "published", accountID := "acc-2" }

/-- A filter on state alone. -/
def stateFilter : PostFilters := { noFilters with state := "published" }

/-- A filter on account membership alone. -/
def accountFilter : PostFilters := { noFilters with accountIDs := ["acc-1"] }

/-- Witness for `filter_composition`: the claim's own example — a state
filter combined with an account-membership filter over three posts. -/
theorem filter_composition_witness :
    filterPosts [fpPostA, fpPostB, fpPostC] (combineFilters stateFilter accountFilter) =
      (filterPosts [fpPostA, fpPostB, fpPostC] stateFilter) ∩
        (filterPosts [fpPostA, fpPostB, fpPostC] accountFilter) ∧
    (∃ r, handleListPosts [fpPostA, fpPostB, fpPostC]
        { pageParam := some 1,
          filters := combineFilters stateFilter accountFilter } = some r ∧
      r.total = ((filterPosts [fpPostA, fpPostB, fpPostC]
        (combineFilters stateFilter accountFilter)).length : Int) ∧
      r.totalPages = max 1 ((r.total + 9) / 10) ∧
      r.posts = pageChunk (filterPosts [fpPostA, fpPostB, fpPostC]
        (combineFilters stateFilter accountFilter)) 1) :=
  filter_composition [fpPostA, fpPostB, fpPostC] stateFilter accountFilter
    ⟨Or.inr rfl, Or.inl rfl, Or.inl rfl, Or.inl rfl, Or.inl rfl, Or.inl rfl,
      Or.inl rfl, Or.inl rfl⟩ 1 (by decide)

/-! ## Claim C7: call-count-triggered error injection -/

/-- Go map update then lookup at the same key. -/
theorem alistGet_alistPut (l : List (String × α)) (k : String) (v : α) :
    alistGet (alistPut l k v) k = some v := by
  induction l with
  | nil => simp [alistGet, alistPut]
  | cons e rest ih =>
    by_cases hk : e.1 == k
    · simp [alistPut, hk, alistGet]
    · simp only [alistPut, hk, Bool.false_eq_true, if_false]
      simpa [alistGet, List.find?, hk] using ih

/-- Updating one key leaves lookups of other keys alone. -/
theorem alistGet_alistPut_ne (l : List (String × α)) (k k' : String) (v : α)
    (h : ¬(k == k') ) :
    alistGet (alistPut l k v) k' = alistGet l k' := by
  induction l with
  | nil => simp [alistGet, alistPut, List.find?, h]
  | cons e rest ih =>
    by_cases hk : e.1 == k
    · have he : ¬(e.1 == k') := by
        intro hc
        exact h (by
          have h1 : e.1 = k := by simpa using hk
          have h2 : e.1 = k' := by simpa using hc
          simp [← h1, h2])
      simp [alistPut, hk, alistGet, List.find?, he, h]
    · simp only [alistPut, hk, Bool.false_eq_true, if_false]
      simp only [alistGet, List.find?] at *
      cases hfe : (fun e : String × α => e.1 == k') e <;> simp [hfe, ih]

/-- The response emitted for a configured error injection. -/
def injectedResponse (cfg : MockErrorResponse β) : MockHttpResponse β :=
  { status := cfg.statusCode, headers := cfg.headers,
    body := match cfg.body with
      | some b => .raw b
      | none => .vacant }

/-- The response emitted for a configured canned response. -/
def cannedResponse (cfg : MockResponse β) : MockHttpResponse β :=
  { status := cfg.statusCode, headers := [],
    body := match cfg.body with
      | some b => .raw b
      | none => .vacant }

/-- One authenticated call against a key with both an error injection and a
canned response configured: the counter becomes `c+1` and the response is the
injected error iff `c+1` has reached the threshold. -/
theorem handleRequest_injection_step (m : MockState β) (r : MockReq)
    (cfgE : MockErrorResponse β) (cfgS : MockResponse β) (c : Int)
    (hauth : r.authHeader = "Bearer-API " ++ m.apiKey)
    (hws : r.workspaceHeader = m.workspaceID)
    (herr : alistGet m.errorResponses (r.method ++ " " ++ r.path) = some cfgE)
    (hsucc : alistGet m.responses (r.method ++ " " ++ r.path) = some cfgS)
    (hcnt : (alistGet m.callCounts (r.method ++ " " ++ r.path)).getD 0 = c) :
    handleRequest m r =
      some ({ m with callCounts :=
                alistPut m.callCounts (r.method ++ " " ++ r.path) (c + 1) },
            if c + 1 ≥ cfgE.callThreshold then injectedResponse cfgE
            else cannedResponse cfgS) := by
  unfold handleRequest
  rw [if_neg (by simp [hauth]), if_neg (by simp [hws])]
  simp only [hcnt, herr, hsucc, alistGet_alistPut]
  by_cases hth : c + 1 ≥ cfgE.callThreshold
  · rw [if_pos hth, if_pos (by simpa using hth)]
    rfl
  · rw [if_neg hth, if_neg (by simpa using hth)]
    rfl

/-- C7: with an error response configured to fire from call `N` on and a
canned success response registered for the same key, a run of `n`
authenticated calls starting from call count `c` yields, for its `i`-th call
(0-based), the canned success body while `c + i + 1 < N` and the configured
error status/headers/body once `c + i + 1 ≥ N`; and `Reset` empties every
call counter. -/
theorem error_injection_trace (m : MockState β) (r : MockReq)
    (cfgE : MockErrorResponse β) (cfgS : MockResponse β) (c : Int) (n : Nat)
    (hauth : r.authHeader = "Bearer-API " ++ m.apiKey)
    (hws : r.workspaceHeader = m.workspaceID)
    (herr : alistGet m.errorResponses (r.method ++ " " ++ r.path) = some cfgE)
    (hsucc : alistGet m.responses (r.method ++ " " ++ r.path) = some cfgS)
    (hcnt : (alistGet m.callCounts (r.method ++ " " ++ r.path)).getD 0 = c) :
    (∃ m', runCalls r n m = some (m',
      (List.range n).map (fun i : Nat =>
        if c + (i : Int) + 1 ≥ cfgE.callThreshold then injectedResponse cfgE
        else cannedResponse cfgS))) ∧
    (MockState.reset m).callCounts = [] := by
  refine ⟨?_, rfl⟩
  induction n generalizing m c with
  | zero => exact ⟨m, rfl⟩
  | succ n ih =>
    obtain ⟨m', hm'⟩ := ih
      ({ m with callCounts :=
          alistPut m.callCounts (r.method ++ " " ++ r.path) (c + 1) })
      (c + 1) hauth hws herr hsucc (by simp [alistGet_alistPut])
    refine ⟨m', ?_⟩
    unfold runCalls
    rw [handleRequest_injection_step m r cfgE cfgS c hauth hws herr hsucc hcnt]
    dsimp only
    rw [hm']
    dsimp only
    congr 2
    rw [List.range_succ_eq_map, List.map_cons, List.map_map]
    congr 1
    · norm_num
    · refine List.map_congr_left fun i _ => ?_
      simp only [Function.comp_apply, Nat.cast_succ]
      have heq : c + ((i : Int) + 1) + 1 = c + 1 + (i : Int) + 1 := by ring
      rw [heq]

/-- A configured error injection: HTTP 429 with a header, firing from the
third call on. -/
def cCfgE : MockErrorResponse String :=
  { statusCode := 429, body := some "rate limit exceeded",
    headers := [("Retry-After", "60")], callThreshold := 3, callCount := 0 }

/-- A configured canned success body for the same endpoint. -/
def cCfgS : MockResponse String :=
  { statusCode := 200, body := some "posts page" }

/-- A mock server with both configurations registered for
`GET /api/v1/posts` and fresh call counters. -/
def c7State : MockState String :=
  { apiKey := "k", workspaceID := "w", jobDelay := 0, jobs := [],
    jobProgression := [], jobProgressIndex := [], posts := [], accounts := [],
    workspaces := [], currentUser := none,
    responses := [("GET /api/v1/posts", cCfgS)],
    errorResponses := [("GET /api/v1/posts", cCfgE)],
    callCounts := [], bulkOpLimit := 0 }

/-- An authenticated request against that endpoint. -/
def c7Req : MockReq :=
  { method := "GET", path := "/api/v1/posts", authHeader := "Bearer-API k",
    workspaceHeader := "w", query := { pageParam := none, filters := noFilters } }

/-- Witness for `error_injection_trace`: five calls against a threshold of 3
give success, success, error, error, error. -/
theorem error_injection_trace_witness :
    (∃ m', runCalls c7Req 5 c7State = some (m',
      (List.range 5).map (fun i : Nat =>
        if (0 : Int) + (i : Int) + 1 ≥ cCfgE.callThreshold then injectedResponse cCfgE
        else cannedResponse cCfgS))) ∧
    (MockState.reset c7State).callCounts = [] :=
  error_injection_trace c7State c7Req cCfgE cCfgS 0 5 rfl rfl (by decide)
    (by decide) (by decide)

/-! ## Claim C10: `Reset` clears the simulation but keeps the credentials -/

/-- The route dispatch never replaces the server state object (individual
handlers mutate collections in place only through the routes the claims do
not exercise, which the model keeps unchanged). -/
theorem dispatch_state_eq (m : MockState β) (r : MockReq) (m' : MockState β)
    (resp : MockHttpResponse β) (h : dispatch m r = some (m', resp)) :
    m' = m := by
  unfold dispatch at h
  rcases Option.map_eq_some'.mp h with ⟨resp0, _, hpair⟩
  exact (congrArg Prod.fst hpair).symm

/-- No request ever changes the server's API key or workspace id. -/
theorem handleRequest_creds (m : MockState β) (r : MockReq) (m' : MockState β)
    (resp : MockHttpResponse β) (h : handleRequest m r = some (m', resp)) :
    m'.apiKey = m.apiKey ∧ m'.workspaceID = m.workspaceID := by
  unfold handleRequest at h
  split_ifs at h
  · simp only [Option.some.injEq, Prod.mk.injEq] at h
    rw [← h.1]
    exact ⟨rfl, rfl⟩
  · simp only [Option.some.injEq, Prod.mk.injEq] at h
    rw [← h.1]
    exact ⟨rfl, rfl⟩
  · dsimp only at h
    split at h
    · split at h
      · simp only [Option.some.injEq, Prod.mk.injEq] at h
        rw [← h.1]
        exact ⟨rfl, rfl⟩
      · split at h
        · simp only [Option.some.injEq, Prod.mk.injEq] at h
          rw [← h.1]
          exact ⟨rfl, rfl⟩
        · have := dispatch_state_eq _ _ _ _ h
          rw [this]
          exact ⟨rfl, rfl⟩
    · split at h
      · simp only [Option.some.injEq, Prod.mk.injEq] at h
        rw [← h.1]
        exact ⟨rfl, rfl⟩
      · have := dispatch_state_eq _ _ _ _ h
        rw [this]
        exact ⟨rfl, rfl⟩

/-- C10: `Reset` empties every simulated collection, job record, configured
response, call counter and the artificial delay, while the generated API key
and workspace id survive — so a client built from the server before `Reset`
still passes both authentication checks afterwards: its request flows
through to the normal route dispatch (with its call counted), rather than
drawing the unauthorized or bad-workspace response. -/
theorem reset_frame (s : MockState β) (method path : String) (q : MockQuery) :
    (MockState.reset s).apiKey = s.apiKey ∧
    (MockState.reset s).workspaceID = s.workspaceID ∧
    (MockState.reset s).jobs = [] ∧
    (MockState.reset s).jobProgression = [] ∧
    (MockState.reset s).jobProgressIndex = [] ∧
    (MockState.reset s).posts = [] ∧
    (MockState.reset s).accounts = [] ∧
    (MockState.reset s).workspaces = [] ∧
    (MockState.reset s).currentUser = none ∧
    (MockState.reset s).responses = [] ∧
    (MockState.reset s).errorResponses = [] ∧
    (MockState.reset s).callCounts = [] ∧
    (MockState.reset s).jobDelay = 0 ∧
    (∀ (m : MockState β) (r : MockReq) (m' : MockState β)
        (resp : MockHttpResponse β), handleRequest m r = some (m', resp) →
      m'.apiKey = m.apiKey ∧ m'.workspaceID = m.workspaceID) ∧
    handleRequest (MockState.reset s)
        (clientRequest (MockState.client s) method path q) =
      dispatch { MockState.reset s with callCounts := [(method ++ " " ++ path, 1)] }
        (clientRequest (MockState.client s) method path q) := by
  refine ⟨rfl, rfl, rfl, rfl, rfl, rfl, rfl, rfl, rfl, rfl, rfl, rfl, rfl,
    handleRequest_creds, ?_⟩
  unfold handleRequest
  rw [if_neg (fun h => h rfl), if_neg (fun h => h rfl)]
  rfl

/-- The state after the first authenticated call against `c7State`. -/
def c7StateAfter : MockState String :=
  { c7State with callCounts := [("GET /api/v1/posts", 1)] }

/-- Witness for `reset_frame` at a concrete server state and request: the key
survives `Reset`, an old client's request after `Reset` flows straight to
dispatch, and a concrete handled call leaves the credentials untouched. -/
theorem reset_frame_witness :
    (MockState.reset c7State).apiKey = c7State.apiKey ∧
    (c7StateAfter.apiKey = c7State.apiKey ∧
      c7StateAfter.workspaceID = c7State.workspaceID) ∧
    handleRequest (MockState.reset c7State)
        (clientRequest (MockState.client c7State) "GET" "/api/v1/posts"
          { pageParam := none, filters := noFilters }) =
      dispatch { MockState.reset c7State with
                   callCounts := [("GET" ++ " " ++ "/api/v1/posts", 1)] }
        (clientRequest (MockState.client c7State) "GET" "/api/v1/posts"
          { pageParam := none, filters := noFilters }) :=
  ⟨(reset_frame c7State "GET" "/api/v1/posts"
      { pageParam := none, filters := noFilters }).1,
    (reset_frame c7State "GET" "/api/v1/posts"
      { pageParam := none, filters := noFilters }).2.2.2.2.2.2.2.2.2.2.2.2.2.1
      c7State c7Req c7StateAfter (cannedResponse cCfgS) (by decide),
    (reset_frame c7State "GET" "/api/v1/posts"
      { pageParam := none, filters := noFilters }).2.2.2.2.2.2.2.2.2.2.2.2.2.2⟩

/-! ## Claim C1: iterating the posts endpoint to exhaustion -/

/-- No filters means no post is dropped. -/
theorem filterPosts_noFilters (posts : List Post) :
    filterPosts posts noFilters = posts := by
  unfold filterPosts
  apply List.filter_eq_self.mpr
  intro a _
  rfl

/-- The `totalPages` value the posts endpoint reports for an unfiltered
collection: `ceil(N/10)` with a minimum of 1. -/
def postsPageT (posts : List Post) : Int :=
  if ((posts.length : Int) + 10 - 1) / 10 = 0 then 1
  else ((posts.length : Int) + 10 - 1) / 10

/-- The page the mock posts endpoint serves for page number `k` of an
unfiltered collection. -/
def mkPostsPage (posts : List Post) (k : Int) : Page Post :=
  { items := pageChunk posts k, total := (posts.length : Int), page := k,
    perPage := 10, totalPages := postsPageT posts }

/-- `totalPages` is at least 1 for the posts endpoint. -/
theorem postsPageT_pos (posts : List Post) : 1 ≤ postsPageT posts := by
  unfold postsPageT
  split_ifs with h <;> omega

/-- `totalPages` for the posts endpoint, as a bound on the collection size. -/
theorem postsPageT_mul (posts : List Post) :
    (posts.length : Int) ≤ postsPageT posts * 10 := by
  unfold postsPageT
  split_ifs with h <;> omega

/-- The fetcher of the posts iterator, run against the mock, succeeds on
every positive page number with exactly the mock's page. -/
theorem fetchPostsPage_eq (posts : List Post) (k : Int) (hk : 1 ≤ k) :
    fetchPostsPage posts noFilters k = .ok (mkPostsPage posts k) := by
  unfold fetchPostsPage
  rw [if_pos (by omega : k > 0)]
  dsimp only
  rw [handleListPosts_eq posts noFilters k hk]
  unfold mkPostsPage postsPageT
  rw [filterPosts_noFilters]

/-- The first `Next` call on a fresh posts iterator: fetches page 1, adopts
the mock's `totalPages`, and returns whether more pages remain. -/
theorem posts_first_next (posts : List Post) :
    GenericIterator.next (fetchPostsPage posts noFilters) liveCtx
        (NewGenericIterator Post) =
      { state := { currentPage := 1, totalPages := postsPageT posts, err := none,
                   inited := true },
        ret := decide (1 < postsPageT posts),
        written := some (mkPostsPage posts 1), fetched := true } := by
  rw [next_uninited _ _ _ rfl rfl]
  have hf : fetchPostsPage posts noFilters ((0 : Int) + 1) =
      .ok (mkPostsPage posts 1) := by
    norm_num [fetchPostsPage_eq posts 1 le_rfl]
  rw [next_fetch_ok _ _ _ _ rfl rfl (by simp [NewGenericIterator]) hf]
  norm_num [NewGenericIterator, mkPostsPage]

/-- A mid-stream `Next` call on the posts iterator: fetches page `k+1` and
keeps the known `totalPages`. -/
theorem posts_mid_next (posts : List Post) (k : Int) (h1 : 1 ≤ k)
    (hk : k < postsPageT posts) :
    GenericIterator.next (fetchPostsPage posts noFilters) liveCtx
        { currentPage := k, totalPages := postsPageT posts, err := none,
          inited := true } =
      { state := { currentPage := k + 1, totalPages := postsPageT posts,
                   err := none, inited := true },
        ret := decide (k + 1 < postsPageT posts),
        written := some (mkPostsPage posts (k + 1)), fetched := true } := by
  have hf : fetchPostsPage posts noFilters (k + 1) =
      .ok (mkPostsPage posts (k + 1)) := fetchPostsPage_eq posts (k + 1) (by omega)
  rw [next_fetch_ok _ _ _ _ rfl rfl (by dsimp only; omega) hf]
  have hne : ¬(k + 1 = 1) := by omega
  simp only [hne, if_false]

/-- Splitting a range-indexed map at its head. -/
theorem range_map_shift (g : Int → γ) (b : Int) (m : Nat) :
    (List.range (m + 1)).map (fun i : Nat => g (b + (i : Int))) =
      g b :: (List.range m).map (fun i : Nat => g (b + 1 + (i : Int))) := by
  rw [List.range_succ_eq_map, List.map_cons, List.map_map]
  congr 1
  · norm_num
  · refine List.map_congr_left fun i _ => ?_
    simp only [Function.comp_apply, Nat.cast_succ]
    congr 1
    ring

/-- Running the posts iterator from page `k` of `T` delivers exactly the pages
`k+1 … T`, ending in the terminal state. -/
theorem posts_run_from (posts : List Post) :
    ∀ (n : Nat) (k : Int) (acc : List (Page Post)), 1 ≤ k → k ≤ postsPageT posts →
      (postsPageT posts - k).toNat ≤ n →
      runIter (fetchPostsPage posts noFilters) liveCtx n
          { currentPage := k, totalPages := postsPageT posts, err := none,
            inited := true } acc =
        (acc.reverse ++ (List.range (postsPageT posts - k).toNat).map
            (fun i : Nat => mkPostsPage posts (k + 1 + (i : Int))),
          { currentPage := postsPageT posts, totalPages := postsPageT posts,
            err := none, inited := true }) := by
  intro n
  induction n with
  | zero =>
    intro k acc h1 hle hfuel
    have hk : k = postsPageT posts := by omega
    subst hk
    simp [runIter]
  | succ n ih =>
    intro k acc h1 hle hfuel
    by_cases hkT : k = postsPageT posts
    · subst hkT
      unfold runIter
      rw [next_terminal _ _ _ rfl rfl ⟨by dsimp only; omega, le_rfl⟩]
      simp
    · have hk : k < postsPageT posts := by omega
      unfold runIter
      rw [posts_mid_next posts k h1 hk]
      by_cases hk1 : k + 1 < postsPageT posts
      · have hret : decide (k + 1 < postsPageT posts) = true := by
          simpa using hk1
        simp only [hret, if_true]
        rw [ih (k + 1) (mkPostsPage posts (k + 1) :: acc) (by omega) (by omega)
          (by omega)]
        have hm : (postsPageT posts - k).toNat = (postsPageT posts - (k + 1)).toNat + 1 := by
          omega
        rw [hm, range_map_shift (fun x => mkPostsPage posts x) (k + 1)
          ((postsPageT posts - (k + 1)).toNat)]
        simp only [List.reverse_cons, List.append_assoc, List.cons_append,
          List.nil_append]
      · have hkeq : k + 1 = postsPageT posts := by omega
        have hret : decide (k + 1 < postsPageT posts) = false := by
          simpa using hk1
        simp only [hret, Bool.false_eq_true, if_false]
        have hm : (postsPageT posts - k).toNat = 1 := by omega
        rw [hm, hkeq]
        simp only [List.range_succ, List.range_zero, List.nil_append,
          List.map_cons, List.map_nil, List.reverse_cons, List.append_assoc,
          List.cons_append]
        norm_num

/-- The pages delivered by driving a fresh posts iterator to exhaustion
against the mock server (page size 10, no filters), with fuel that outlasts
the page count. -/
def postsIterationPages (posts : List Post) : List (Page Post) :=
  (runIter (fetchPostsPage posts noFilters) liveCtx (posts.length + 1)
    (NewGenericIterator Post) []).1

/-- The delivered pages are exactly pages `1 … T` of the mock. -/
theorem postsIterationPages_eq (posts : List Post) :
    postsIterationPages posts =
      (List.range (postsPageT posts).toNat).map
        (fun i : Nat => mkPostsPage posts (1 + (i : Int))) := by
  have hT1 := postsPageT_pos posts
  have hTN := postsPageT_mul posts
  unfold postsIterationPages
  show (runIter (fetchPostsPage posts noFilters) liveCtx
      (Nat.succ posts.length) (NewGenericIterator Post) []).1 = _
  unfold runIter
  rw [posts_first_next posts]
  by_cases h1T : 1 < postsPageT posts
  · have hret : decide (1 < postsPageT posts) = true := by simpa using h1T
    simp only [hret, if_true]
    rw [posts_run_from posts posts.length 1 [mkPostsPage posts 1] le_rfl
      (by omega) (by unfold postsPageT at *; split_ifs at * <;> omega)]
    have hm : (postsPageT posts).toNat = (postsPageT posts - 1).toNat + 1 := by
      omega
    rw [hm, range_map_shift (fun x => mkPostsPage posts x) 1
      ((postsPageT posts - 1).toNat)]
    simp
  · have hT : postsPageT posts = 1 := by omega
    have hret : decide (1 < postsPageT posts) = false := by simpa using h1T
    simp only [hret, Bool.false_eq_true, if_false]
    rw [hT]
    simp only [Int.toNat_one, List.range_succ, List.range_zero, List.nil_append,
      List.map_cons, List.map_nil]
    norm_num

/-- Concatenating consecutive 10-chunks of a list restores it. -/
theorem flatten_chunks : ∀ (t : Nat) (l : List γ), l.length ≤ t * 10 →
    (((List.range t).map (fun i : Nat => (l.drop (i * 10)).take 10)).flatten = l) := by
  intro t
  induction t with
  | zero =>
    intro l hl
    have : l = [] := List.eq_nil_of_length_eq_zero (by omega)
    subst this
    rfl
  | succ t ih =>
    intro l hl
    rw [List.range_succ_eq_map, List.map_cons, List.map_map, List.flatten_cons]
    have htail : (List.range t).map ((fun i : Nat => (l.drop (i * 10)).take 10) ∘ Nat.succ) =
        (List.range t).map (fun i : Nat => ((l.drop 10).drop (i * 10)).take 10) := by
      refine List.map_congr_left fun i _ => ?_
      simp only [Function.comp_apply]
      rw [List.drop_drop]
      congr 2
      omega
    rw [htail, ih (l.drop 10) (by simp [List.length_drop]; omega)]
    exact List.take_append_drop 10 l

/-- C1: driving a fresh iterator over the mock posts endpoint (page size 10)
to exhaustion delivers the `N` stored posts exactly, in their original order,
spread over `max 1 ⌈N/10⌉` pages — at least one page even when `N = 0`. -/
theorem posts_iteration_exhaustive (posts : List Post) :
    (postsIterationPages posts).length = max 1 ((posts.length + 9) / 10) ∧
    ((postsIterationPages posts).map Page.items).flatten = posts ∧
    1 ≤ (postsIterationPages posts).length := by
  have hT1 := postsPageT_pos posts
  have hTN := postsPageT_mul posts
  rw [postsIterationPages_eq posts]
  refine ⟨?_, ?_, ?_⟩
  · simp only [List.length_map, List.length_range]
    unfold postsPageT at *
    split_ifs at * <;> omega
  · rw [List.map_map]
    have hitems : (List.range (postsPageT posts).toNat).map
          (Page.items ∘ fun i : Nat => mkPostsPage posts (1 + (i : Int))) =
        (List.range (postsPageT posts).toNat).map
          (fun i : Nat => (posts.drop (i * 10)).take 10) := by
      refine List.map_congr_left fun i _ => ?_
      simp only [Function.comp_apply, mkPostsPage, pageChunk]
      congr 2
      omega
    rw [hitems]
    exact flatten_chunks (postsPageT posts).toNat posts (by omega)
  · simp only [List.length_map, List.length_range]
    omega

end Publer
